import Mathlib

/-!
Verification of the camera-surveillance pipeline of the CM3070 Django app.

This file is a shallow embedding, in Lean 4, of the pure logic of the
repository (motion detection, face recognition, buffer disciplines, alert
rate limiting, alert-email composition, clip saving, the audio capture loop,
and the frame-serving path), together with theorems settling the behavioral
claims about that logic.

Conventions of the embedding:
* `numpy` images are nested lists of naturals (greyscale) or of BGR triples
  (color frames); machine floats are idealized as rationals, with Euclidean
  distances handled through `Real.sqrt` of an exactly computed rational
  sum of squares (the square root is strictly monotone, so every comparison
  made by the source is preserved exactly).
* External OpenCV primitives that the source merely calls (color conversion,
  Gaussian blur, contour extraction, drawing, JPEG encoding) are modelled as
  opaque function parameters, gathered in `CvOps`; the arithmetic primitives
  the claims depend on (absolute difference, binary threshold, dilation,
  contour area by the shoelace formula, bounding rectangles) are implemented
  concretely, following the documented OpenCV semantics.
* Stateful methods become explicit state-passing functions; wall-clock reads
  (`time.time()`) become integer timestamp arguments; fallible external
  transports (SMTP) become boolean outcome arguments.
-/

/-- A video frame: rows of BGR pixel triples. Frames are produced by
`cv2.VideoCapture.read` and copied into the various buffers. -/
abbrev Frame := List (List (Nat × Nat × Nat))

/-- A greyscale image: rows of 8-bit intensities (modelled as naturals). -/
abbrev Image := List (List Nat)

/-- A rectangle `(x, y, w, h)` as returned by `cv2.boundingRect` and used for
face and motion boxes. -/
abbrev Rect := Int × Int × Int × Int

/-- A small distinguishable frame, used to build concrete buffer contents in
witnesses. -/
def mkFrame (k : Nat) : Frame := [[(k, 0, 0)]]

/-! ## FrameBuffers (claim C4)

`object_classifier.py` line 53 keeps a capped FIFO:
`self.prediction_buffer = deque(maxlen=buffer_size)` (default 10).
`video_camera.py` lines 185 and 190-191 append to the recognition queue
(`self.frames`), the snapshot buffer (`self.frame_buffer`) and the running
buffer (`self.running_buffer`) with plain `list.append`, and the consumer
side pops with `list.pop(0)`; no size cap appears anywhere for those lists. -/

/-- One `append` on a `collections.deque` with a `maxlen` bound (the type of
`ObjectClassifier.prediction_buffer`): when the deque already holds `maxlen`
items, appending discards the oldest (leftmost) item. -/
def dequeAppend (maxlen : Nat) (q : List α) (x : α) : List α :=
  (q ++ [x]).drop (q.length + 1 - maxlen)

/-- Plain Python `list.append`, as used for the recognition queue
(`video_camera.py` line 185, `self.frames.append(image.copy())`) and the
snapshot buffer (line 190, `self.frame_buffer.append(image.copy())`):
no size cap, nothing is ever evicted. -/
def bufferAppend (q : List α) (x : α) : List α := q ++ [x]

theorem bufferAppend_foldl (q xs : List α) : xs.foldl bufferAppend q = q ++ xs := by
  induction xs generalizing q with
  | nil => simp
  | cons x xs ih => simp [bufferAppend, ih]

theorem dequeAppend_foldl (N : Nat) :
    ∀ (xs q : List α), q.length ≤ N →
      xs.foldl (dequeAppend N) q = (q ++ xs).drop (q.length + xs.length - N) := by
  intro xs
  induction xs with
  | nil =>
      intro q h
      simp only [List.foldl_nil, List.append_nil, List.length_nil]
      have h0 : q.length + 0 - N = 0 := by omega
      rw [h0, List.drop_zero]
  | cons x xs ih =>
      intro q h
      have hq' : (dequeAppend N q x).length = q.length + 1 - (q.length + 1 - N) := by
        simp [dequeAppend]
      have hle : (dequeAppend N q x).length ≤ N := by omega
      rw [List.foldl_cons, ih (dequeAppend N q x) hle]
      have hsplit : dequeAppend N q x ++ xs = ((q ++ [x]) ++ xs).drop (q.length + 1 - N) := by
        rw [List.drop_append_eq_append_drop]
        have h0 : q.length + 1 - N - (q ++ [x]).length = 0 := by
          simp only [List.length_append, List.length_cons, List.length_nil]
          omega
        simp [dequeAppend, h0]
      rw [hsplit, List.drop_drop, hq']
      have harith : q.length + 1 - N + (q.length + 1 - (q.length + 1 - N) + xs.length - N)
          = q.length + (x :: xs).length - N := by
        simp only [List.length_cons]
        omega
      rw [harith]
      congr 1
      simp

/-- Claim C4 (amended): the `ObjectClassifier.prediction_buffer` is a
size-capped FIFO with oldest-first eviction (a `deque` with `maxlen`): for
every capacity `N`, appending `N + 5` items to an empty buffer capped at `N`
leaves exactly the most recent `N` items in arrival order. The recognition
queue (`VideoCamera.frames`) and the snapshot buffer
(`VideoCamera.frame_buffer`) are, by contrast, unbounded Python lists:
appending `N + 5` items leaves all `N + 5` items and nothing is evicted. -/
theorem buffer_capping_behavior :
    (∀ (N : Nat) (xs : List Frame), xs.length = N + 5 →
        xs.foldl (dequeAppend N) [] = xs.drop 5 ∧
        (xs.foldl (dequeAppend N) []).length = N) ∧
    (∀ xs : List Frame, xs.foldl bufferAppend [] = xs) := by
  constructor
  · intro N xs h
    have hfold := dequeAppend_foldl N xs ([] : List Frame) (by simp)
    simp only [List.nil_append, List.length_nil, Nat.zero_add] at hfold
    have h5 : xs.length - N = 5 := by omega
    rw [hfold, h5]
    refine ⟨rfl, ?_⟩
    simp [h]
  · intro xs
    simpa using bufferAppend_foldl ([] : List Frame) xs

/-- Claim C4 witness: with capacity `N = 2` and seven appended frames, the
deque keeps exactly the two most recent frames, while the uncapped list keeps
all seven. -/
theorem buffer_capping_behavior_witness :
    ((List.range 7).map mkFrame).foldl (dequeAppend 2) [] = [mkFrame 5, mkFrame 6] ∧
    ((List.range 7).map mkFrame).foldl bufferAppend [] = (List.range 7).map mkFrame := by
  refine ⟨?_, buffer_capping_behavior.2 _⟩
  have h1 := (buffer_capping_behavior.1 2 ((List.range 7).map mkFrame) (by decide)).1
  rw [h1]
  decide

/-- Claim C4 counterexample: the recognition queue of `VideoCamera.get_frame`
is a plain list; appending six frames to the empty queue leaves six frames.
Under the claim (a buffer capped at some `N` with `N + 5 = 6`, that is
`N = 1`) only the single most recent frame would remain, so the claim is
false of the recognition queue and of the snapshot buffer, whose appends are
the same operation. -/
theorem recognition_queue_unbounded :
    ((List.range 6).map mkFrame).foldl bufferAppend [] = (List.range 6).map mkFrame ∧
    (((List.range 6).map mkFrame).foldl bufferAppend []).length = 6 := by
  constructor <;> decide

/-! ## FaceMatcher (claim C1)

`facial_recognition.py` lines 110-141 (`FacialRecognition.recognize_faces`)
scan the known-face gallery for the entry at minimum Euclidean distance from
the extracted feature vector, then demote the label to `"Unknown"` when
`min_distance > recognition_threshold` (default `5.0`).
`video_camera.py` lines 231-259 (`VideoCamera._recognize_faces`) run the same
minimum scan but apply NO distance threshold: the nearest label is kept at
any distance, and `"Unknown"` appears only when `label` stays falsy
(`None` for an empty gallery, or an empty-string label). -/

/-- Squared Euclidean distance between two feature vectors. The source calls
`scipy.spatial.distance.euclidean`, which returns the square root of this
sum; the embedding computes the radicand exactly in `ℚ`, and the theorems
compare distances through `Real.sqrt`, which is strictly monotone on
nonnegatives, so every comparison made by the source is reflected exactly. -/
def sqDist (v w : List ℚ) : ℚ := ((v.zip w).map (fun p => (p.1 - p.2) ^ 2)).sum

/-- One iteration of the gallery loop shared by both recognizers: keep the
running `(min_distance, label)` pair, updating on a strict decrease
(`if distance < min_distance`). The initial Python state
(`min_distance` set to the float infinity with the initial label) is `none`; the first
gallery entry always replaces it, because every distance compares strictly
below infinity. -/
def minStep (features : List ℚ) (st : Option (ℚ × String)) (entry : List ℚ × String) :
    Option (ℚ × String) :=
  match st with
  | none => some (sqDist features entry.1, entry.2)
  | some ml =>
      if sqDist features entry.1 < ml.1 then some (sqDist features entry.1, entry.2) else st

/-- The full gallery scan; `none` exactly when the gallery is empty. -/
def minFold (features : List ℚ) (gallery : List (List ℚ × String)) : Option (ℚ × String) :=
  gallery.foldl (minStep features) none

/-- Label assignment of `FacialRecognition.recognize_faces`
(facial_recognition.py lines 124-136). The threshold parameter is the
squared threshold (`recognition_threshold = 5.0` corresponds to
`sqThreshold = 25`): the comparison `min_distance > recognition_threshold`
of the source is equivalent to the same comparison of the squared
quantities. In the empty-gallery case `min_distance` stays infinite, so the
threshold check leaves the initial label `"Unknown"`. -/
def recognizeFaceLabel (features : List ℚ) (sqThreshold : ℚ)
    (gallery : List (List ℚ × String)) : String :=
  match minFold features gallery with
  | none => "Unknown"
  | some ml => if sqThreshold < ml.1 then "Unknown" else ml.2

/-- Label assignment of `VideoCamera._recognize_faces` (video_camera.py lines
245-252): `label = None` initially and `label if label else "Unknown"` (inside backticks: `label if label else ...`) at the
end, with no distance threshold anywhere. -/
def vcRecognizeLabel (features : List ℚ) (gallery : List (List ℚ × String)) : String :=
  match minFold features gallery with
  | none => "Unknown"
  | some ml => if ml.2 = "" then "Unknown" else ml.2

theorem recognizeFaceLabel_eq (f : List ℚ) (tq : ℚ) (g : List (List ℚ × String))
    (m : ℚ) (lab : String) (h : minFold f g = some (m, lab)) :
    recognizeFaceLabel f tq g = if tq < m then "Unknown" else lab := by
  unfold recognizeFaceLabel
  rw [h]

theorem vcRecognizeLabel_eq (f : List ℚ) (g : List (List ℚ × String))
    (m : ℚ) (lab : String) (h : minFold f g = some (m, lab)) :
    vcRecognizeLabel f g = if lab = "" then "Unknown" else lab := by
  unfold vcRecognizeLabel
  rw [h]

theorem sqDist_nonneg (v w : List ℚ) : 0 ≤ sqDist v w := by
  apply List.sum_nonneg
  intro x hx
  obtain ⟨p, _, rfl⟩ := List.mem_map.mp hx
  positivity

theorem minFold_go (f : List ℚ) :
    ∀ (g : List (List ℚ × String)) (m₀ : ℚ) (lab₀ : String),
      ∃ m lab, g.foldl (minStep f) (some (m₀, lab₀)) = some (m, lab) ∧
        m ≤ m₀ ∧
        ((m = m₀ ∧ lab = lab₀) ∨ ∃ e ∈ g, sqDist f e.1 = m ∧ e.2 = lab) ∧
        ∀ e ∈ g, m ≤ sqDist f e.1 := by
  intro g
  induction g with
  | nil =>
      intro m₀ lab₀
      exact ⟨m₀, lab₀, rfl, le_refl _, Or.inl ⟨rfl, rfl⟩, by simp⟩
  | cons e g ih =>
      intro m₀ lab₀
      by_cases hd : sqDist f e.1 < m₀
      · obtain ⟨m, lab, hfold, hle, horg, hall⟩ := ih (sqDist f e.1) e.2
        refine ⟨m, lab, ?_, le_trans hle (le_of_lt hd), ?_, ?_⟩
        · rw [List.foldl_cons]
          simpa [minStep, hd] using hfold
        · rcases horg with ⟨h1, h2⟩ | ⟨e2, he2, h1, h2⟩
          · exact Or.inr ⟨e, List.mem_cons_self e g, h1.symm, h2.symm⟩
          · exact Or.inr ⟨e2, List.mem_cons_of_mem e he2, h1, h2⟩
        · intro e2 he2
          rcases List.mem_cons.mp he2 with h2 | h2
          · rw [h2]; exact hle
          · exact hall e2 h2
      · obtain ⟨m, lab, hfold, hle, horg, hall⟩ := ih m₀ lab₀
        refine ⟨m, lab, ?_, hle, ?_, ?_⟩
        · rw [List.foldl_cons]
          simpa [minStep, hd] using hfold
        · rcases horg with h1 | ⟨e2, he2, h1, h2⟩
          · exact Or.inl h1
          · exact Or.inr ⟨e2, List.mem_cons_of_mem e he2, h1, h2⟩
        · intro e2 he2
          rcases List.mem_cons.mp he2 with h2 | h2
          · rw [h2]; exact le_trans hle (not_lt.mp hd)
          · exact hall e2 h2

theorem minFold_spec (f : List ℚ) (g : List (List ℚ × String)) (h : g ≠ []) :
    ∃ m lab, minFold f g = some (m, lab) ∧
      (∃ e ∈ g, sqDist f e.1 = m ∧ e.2 = lab) ∧
      ∀ e ∈ g, m ≤ sqDist f e.1 := by
  match g, h with
  | e :: g, _ =>
    obtain ⟨m, lab, hfold, hle, horg, hall⟩ := minFold_go f g (sqDist f e.1) e.2
    have h1 : minFold f (e :: g) = g.foldl (minStep f) (some (sqDist f e.1, e.2)) := by
      simp [minFold, minStep]
    refine ⟨m, lab, h1.trans hfold, ?_, ?_⟩
    · rcases horg with ⟨hm, hl⟩ | ⟨e2, he2, hm, hl⟩
      · exact ⟨e, List.mem_cons_self e g, hm.symm, hl.symm⟩
      · exact ⟨e2, List.mem_cons_of_mem e he2, hm, hl⟩
    · intro e2 he2
      rcases List.mem_cons.mp he2 with h2 | h2
      · rw [h2]; exact hle
      · exact hall e2 h2

/-- Claim C1 (amended): for every detected face region whose feature vector
is extracted, `FacialRecognition.recognize_faces` assigns the label of the
gallery entry at minimum Euclidean distance, and assigns `"Unknown"` exactly
when that minimum exceeds the configured distance threshold, or
unconditionally when the gallery is empty. `VideoCamera._recognize_faces`
runs the same minimum-distance scan but applies NO distance threshold: it
keeps the nearest label at any distance, using `"Unknown"` only for an empty
gallery or an empty-string label. -/
theorem recognize_min_distance_label (g : List (List ℚ × String)) (f : List ℚ)
    (tq : ℚ) (ht : 0 ≤ tq) :
    (g = [] → recognizeFaceLabel f tq g = "Unknown" ∧ vcRecognizeLabel f g = "Unknown") ∧
    (g ≠ [] → ∃ e ∈ g, ∃ m : ℚ,
        minFold f g = some (m, e.2) ∧ sqDist f e.1 = m ∧
        (∀ e2 ∈ g, Real.sqrt (m : ℝ) ≤ Real.sqrt ((sqDist f e2.1 : ℚ) : ℝ)) ∧
        recognizeFaceLabel f tq g =
          (if Real.sqrt ((tq : ℚ) : ℝ) < Real.sqrt ((m : ℚ) : ℝ) then "Unknown" else e.2) ∧
        vcRecognizeLabel f g = (if e.2 = "" then "Unknown" else e.2)) := by
  constructor
  · intro h
    subst h
    exact ⟨rfl, rfl⟩
  · intro h
    obtain ⟨m, lab, hfold, ⟨e, he, hm, hl⟩, hall⟩ := minFold_spec f g h
    subst hl
    refine ⟨e, he, m, hfold, hm, ?_, ?_, vcRecognizeLabel_eq f g m e.2 hfold⟩
    · intro e2 he2
      exact Real.sqrt_le_sqrt (by exact_mod_cast hall e2 he2)
    · rw [recognizeFaceLabel_eq f tq g m e.2 hfold]
      have hiff : ((tq : ℝ) < (m : ℝ)) ↔ Real.sqrt (tq : ℝ) < Real.sqrt (m : ℝ) :=
        (Real.sqrt_lt_sqrt_iff (by exact_mod_cast ht)).symm
      exact if_congr (by exact_mod_cast hiff) rfl rfl

/-- A concrete three-entry gallery whose Euclidean distances from `queryW`
are exactly 1, 4 and 7 (the squared distances are 1, 16 and 49). -/
def galleryW : List (List ℚ × String) := [([1, 0], "alice"), ([0, 4], "bob"), ([7, 0], "carol")]

/-- The concrete query feature vector used by the witnesses. -/
def queryW : List ℚ := [0, 0]

/-- Claim C1 witness: with the three-entry gallery at Euclidean distances
1, 4, 7, threshold 5 (squared: 25) yields the nearest label and threshold
1/2 (squared: 1/4) yields `"Unknown"`. -/
theorem recognize_min_distance_label_witness :
    recognizeFaceLabel queryW 25 galleryW = "alice" ∧
    recognizeFaceLabel queryW (1/4) galleryW = "Unknown" := by
  have hfold : minFold queryW galleryW = some (1, "alice") := by
    norm_num [minFold, minStep, sqDist, galleryW, queryW]
  constructor
  · obtain ⟨-, h2⟩ := recognize_min_distance_label galleryW queryW 25 (by norm_num)
    obtain ⟨e, he, m, hm, hd, hmono, hrec, hvc⟩ := h2 (by simp [galleryW])
    have hme : ((m : ℚ), e.2) = ((1 : ℚ), "alice") := Option.some.inj (hm.symm.trans hfold)
    have hm1 : m = 1 := congrArg Prod.fst hme
    have he2 : e.2 = "alice" := congrArg Prod.snd hme
    have hcond : ¬ (Real.sqrt ((25 : ℚ) : ℝ) < Real.sqrt ((1 : ℚ) : ℝ)) := by
      rw [not_lt]
      apply Real.sqrt_le_sqrt
      norm_num
    rw [hrec, hm1, he2, if_neg hcond]
  · obtain ⟨-, h2⟩ := recognize_min_distance_label galleryW queryW (1/4) (by norm_num)
    obtain ⟨e, he, m, hm, hd, hmono, hrec, hvc⟩ := h2 (by simp [galleryW])
    have hme : ((m : ℚ), e.2) = ((1 : ℚ), "alice") := Option.some.inj (hm.symm.trans hfold)
    have hm1 : m = 1 := congrArg Prod.fst hme
    have hcond : Real.sqrt ((1/4 : ℚ) : ℝ) < Real.sqrt ((1 : ℚ) : ℝ) := by
      apply Real.sqrt_lt_sqrt (by norm_num)
      norm_num
    rw [hrec, hm1, if_pos hcond]

/-- A one-entry gallery at Euclidean distance exactly 7 from `queryW`. -/
def galleryFar : List (List ℚ × String) := [([7, 0], "carol")]

/-- Claim C1 counterexample: `VideoCamera._recognize_faces` (video_camera.py
lines 245-252) applies no distance threshold. With a gallery whose only
entry sits at Euclidean distance 7 from the query — beyond the configured
recognition threshold of 5.0 — the claim requires the label `"Unknown"`,
but the code assigns `"carol"`. -/
theorem vc_recognize_ignores_threshold :
    vcRecognizeLabel queryW galleryFar = "carol" ∧
    Real.sqrt ((sqDist queryW [7, 0] : ℚ) : ℝ) > 5 := by
  constructor
  · have hfold : minFold queryW galleryFar = some (49, "carol") := by
      norm_num [minFold, minStep, sqDist, galleryFar, queryW]
    rw [vcRecognizeLabel_eq queryW galleryFar 49 "carol" hfold, if_neg (by decide)]
  · have h49 : ((sqDist queryW [7, 0] : ℚ) : ℝ) = 49 := by
      norm_num [sqDist, queryW]
    rw [h49, show (49 : ℝ) = 7 ^ 2 by norm_num, Real.sqrt_sq (by norm_num : (0:ℝ) ≤ 7)]
    norm_num

/-! ## MotionDetector (claims C7 and C8)

`movement_detection.py` lines 19-56 (`MovementDetection.detect_movement`)
and the character-identical `VideoCamera.detect_movement` (video_camera.py
lines 146-167): greyscale and blur the frame; on the first call store the
result as baseline and report no motion; afterwards compute the absolute
difference against the baseline, replace the baseline with the new greyscale
frame, binary-threshold at 25, dilate twice, extract external contours and
scan them for the first one of area at least 500. -/

/-- A detected face as carried through `VideoCamera`: a box and a label. -/
abbrev DetectedFace := Rect × String

/-- A contour as returned by `cv2.findContours`: the polygon of boundary
points of one external nonzero region. -/
abbrev Contour := List (Int × Int)

/-- Twice the signed area of a closed polygon (the shoelace sum), the
quantity `cv2.contourArea` halves. -/
def shoelace (c : Contour) : Int :=
  ((c.zip (c.rotate 1)).map (fun pq => pq.1.1 * pq.2.2 - pq.2.1 * pq.1.2)).sum

/-- Model of `cv2.contourArea`: absolute value of the shoelace sum, halved. -/
def contourArea (c : Contour) : ℚ := (Int.natAbs (shoelace c) : ℚ) / 2

/-- Model of `cv2.boundingRect`: the upright rectangle `(x, y, w, h)` enclosing the
points of a contour, with inclusive pixel extents (`w = maxx - minx + 1`). -/
def boundingRect (c : Contour) : Rect :=
  match c with
  | [] => (0, 0, 0, 0)
  | p :: ps =>
      let xs := (p :: ps).map Prod.fst
      let ys := (p :: ps).map Prod.snd
      (xs.foldl min p.1, ys.foldl min p.2,
        xs.foldl max p.1 - xs.foldl min p.1 + 1, ys.foldl max p.2 - ys.foldl min p.2 + 1)

/-- Model of `cv2.absdiff`: pointwise absolute difference of two greyscale images. -/
def absdiffImg (a b : Image) : Image :=
  List.zipWith (List.zipWith (fun x y => max x y - min x y)) a b

/-- Model of `cv2.threshold(frame_diff, 25, 255, cv2.THRESH_BINARY)`: pixels strictly
above 25 become 255, the rest 0. -/
def thresholdImg (img : Image) : Image :=
  img.map (fun row => row.map (fun v => if 25 < v then 255 else 0))

/-- Pixel read with a zero border, for the dilation window. -/
def pixelAt (img : Image) (i j : Int) : Nat :=
  if 0 ≤ i ∧ 0 ≤ j then (img.getD i.toNat []).getD j.toNat 0 else 0

/-- One `cv2.dilate` pass with the default 3×3 kernel: each output pixel is
the maximum over its 3×3 neighborhood. The source runs `iterations=2`. -/
def dilateImg (img : Image) : Image :=
  (List.range img.length).map (fun i =>
    (List.range ((img.getD i []).length)).map (fun j =>
      ((List.range 3).map (fun di =>
        ((List.range 3).map (fun dj =>
          pixelAt img ((i : Int) + (di : Int) - 1) ((j : Int) + (dj : Int) - 1))).foldl max 0)).foldl max 0))

/-- The contour loop of `detect_movement` (movement_detection.py lines
49-53): skip every contour of area below 500, return
`(True, boundingRect(contour))` for the first remaining one, and
`(False, None)` when the loop finishes without finding one. -/
def scanContours : List Contour → Bool × Option Rect
  | [] => (false, none)
  | c :: rest =>
      if contourArea c < 500 then scanContours rest else (true, some (boundingRect c))

/-- The external OpenCV primitives the pipeline calls, modelled as opaque
functions: the theorems hold for every choice of these, except where a
minimal documented contract is stated as a hypothesis. -/
structure CvOps where
  cvtColorGray : Frame → Image
  gaussianBlur : Image → Image
  findContours : Image → List Contour
  resize : Frame → Frame
  rectangleMotion : Frame → Rect → Frame
  drawFaces : Frame → List DetectedFace → Frame
  putTimestamp : Frame → Frame
  imencodeJpg : Frame → List Nat

/-- Embedding of `detect_movement`: returns the `(detected, box)` pair and the new
baseline (`self.previous_frame` is replaced by the fresh greyscale frame on
every call after the first, a rolling reference). -/
def detectMovement (ops : CvOps) (prev : Option Image) (frame : Frame) :
    (Bool × Option Rect) × Image :=
  let gray := ops.gaussianBlur (ops.cvtColorGray frame)
  match prev with
  | none => ((false, none), gray)
  | some p =>
      let frameDiff := absdiffImg p gray
      let thresh := dilateImg (dilateImg (thresholdImg frameDiff))
      (scanContours (ops.findContours thresh), gray)

/-- The contour list `detect_movement` examines for a given baseline and
frame: external contours of the dilated, thresholded difference image. -/
def diffContours (ops : CvOps) (p : Image) (f : Frame) : List Contour :=
  ops.findContours
    (dilateImg (dilateImg (thresholdImg (absdiffImg p (ops.gaussianBlur (ops.cvtColorGray f))))))

theorem detectMovement_some (ops : CvOps) (p : Image) (f : Frame) :
    detectMovement ops (some p) f
      = (scanContours (diffContours ops p f), ops.gaussianBlur (ops.cvtColorGray f)) := rfl

/-- An all-zero image (nothing survived the binary threshold). -/
def ImgZero (img : Image) : Prop := ∀ row ∈ img, ∀ v ∈ row, v = 0

theorem absdiffImg_self (g : Image) : ImgZero (absdiffImg g g) := by
  intro row hrow v hv
  rw [absdiffImg, List.zipWith_same] at hrow
  obtain ⟨r, _, rfl⟩ := List.mem_map.mp hrow
  rw [List.zipWith_same] at hv
  obtain ⟨x, _, rfl⟩ := List.mem_map.mp hv
  simp

theorem thresholdImg_zero (img : Image) (h : ImgZero img) : ImgZero (thresholdImg img) := by
  intro row hrow v hv
  obtain ⟨r, hr, rfl⟩ := List.mem_map.mp hrow
  obtain ⟨x, hx, rfl⟩ := List.mem_map.mp hv
  rw [h r hr x hx]
  simp

theorem getD_zero_of_all {l : List Nat} (h : ∀ v ∈ l, v = 0) :
    ∀ n : Nat, l.getD n 0 = 0 := by
  induction l with
  | nil => intro n; rfl
  | cons x l ih =>
      intro n
      cases n with
      | zero => exact h x (List.mem_cons_self x l)
      | succ n => exact ih (fun v hv => h v (List.mem_cons_of_mem x hv)) n

theorem getD_row_zero {img : Image} (h : ImgZero img) :
    ∀ n : Nat, ∀ v ∈ img.getD n [], v = 0 := by
  induction img with
  | nil => intro n v hv; simp at hv
  | cons row img ih =>
      intro n
      cases n with
      | zero => exact h row (List.mem_cons_self row img)
      | succ n => exact ih (fun r hr => h r (List.mem_cons_of_mem row hr)) n

theorem pixelAt_zero (img : Image) (h : ImgZero img) (i j : Int) : pixelAt img i j = 0 := by
  unfold pixelAt
  by_cases hij : 0 ≤ i ∧ 0 ≤ j
  · rw [if_pos hij]
    exact getD_zero_of_all (getD_row_zero h i.toNat) j.toNat
  · rw [if_neg hij]

theorem foldl_max_zero (l : List Nat) (h : ∀ x ∈ l, x = 0) : l.foldl max 0 = 0 := by
  induction l with
  | nil => rfl
  | cons x l ih =>
      rw [List.foldl_cons, h x (List.mem_cons_self x l), Nat.max_self]
      exact ih (fun y hy => h y (List.mem_cons_of_mem x hy))

theorem dilateImg_zero (img : Image) (h : ImgZero img) : ImgZero (dilateImg img) := by
  intro row hrow v hv
  obtain ⟨i, _, rfl⟩ := List.mem_map.mp hrow
  obtain ⟨j, _, rfl⟩ := List.mem_map.mp hv
  apply foldl_max_zero
  intro x hx
  obtain ⟨di, _, rfl⟩ := List.mem_map.mp hx
  apply foldl_max_zero
  intro y hy
  obtain ⟨dj, _, rfl⟩ := List.mem_map.mp hy
  exact pixelAt_zero img h _ _

/-- Claim C7: for every frame and every detector state (fresh or with any
stored baseline), feeding the same frame to `detect_movement` twice in a row
yields `(False, None)` on the second call. The baseline stored by the first
call is exactly the greyscaled, blurred frame, so the second difference
image is identically zero; thresholding and dilation keep it zero, and an
all-zero binary image has no contours — the hypothesis states this minimal
contract of `cv2.findContours`, whose output is the set of boundaries of
nonzero regions. -/
theorem detect_movement_same_frame_no_motion (ops : CvOps)
    (hfc : ∀ img, ImgZero img → ops.findContours img = [])
    (prev : Option Image) (f : Frame) :
    (detectMovement ops (some (detectMovement ops prev f).2) f).1 = (false, none) := by
  have hstate : (detectMovement ops prev f).2 = ops.gaussianBlur (ops.cvtColorGray f) := by
    cases prev <;> rfl
  rw [hstate, detectMovement_some]
  have hz : ImgZero (dilateImg (dilateImg (thresholdImg
      (absdiffImg (ops.gaussianBlur (ops.cvtColorGray f))
        (ops.gaussianBlur (ops.cvtColorGray f)))))) :=
    dilateImg_zero _ (dilateImg_zero _ (thresholdImg_zero _ (absdiffImg_self _)))
  rw [show diffContours ops (ops.gaussianBlur (ops.cvtColorGray f)) f
      = ops.findContours (dilateImg (dilateImg (thresholdImg
          (absdiffImg (ops.gaussianBlur (ops.cvtColorGray f))
            (ops.gaussianBlur (ops.cvtColorGray f)))))) from rfl, hfc _ hz]
  rfl

/-- Trivial concrete instantiations of the external OpenCV primitives, with
a prescribed contour-extraction result; used only by witnesses. -/
def trivOps (cs : List Contour) : CvOps :=
  { cvtColorGray := fun _ => [[0]]
    gaussianBlur := id
    findContours := fun _ => cs
    resize := id
    rectangleMotion := fun img _ => img
    drawFaces := fun img _ => img
    putTimestamp := id
    imencodeJpg := fun _ => [] }

/-- Claim C7 witness: a concrete run, from the fresh-detector state, with a
contour extractor that finds nothing in an all-zero image. -/
theorem detect_movement_same_frame_no_motion_witness :
    (detectMovement (trivOps [])
        (some (detectMovement (trivOps []) none [[(1, 2, 3)]]).2) [[(1, 2, 3)]]).1
      = (false, none) :=
  detect_movement_same_frame_no_motion (trivOps []) (fun _ _ => rfl) none [[(1, 2, 3)]]

theorem scanContours_true_iff (cs : List Contour) :
    (scanContours cs).1 = true ↔ ∃ c ∈ cs, 500 ≤ contourArea c := by
  induction cs with
  | nil => simp [scanContours]
  | cons c rest ih =>
      have unf : scanContours (c :: rest)
          = if contourArea c < 500 then scanContours rest
            else (true, some (boundingRect c)) := rfl
      by_cases hc : contourArea c < 500
      · rw [unf, if_pos hc, ih]
        constructor
        · rintro ⟨c2, h2, h3⟩
          exact ⟨c2, List.mem_cons_of_mem c h2, h3⟩
        · rintro ⟨c2, h2, h3⟩
          rcases List.mem_cons.mp h2 with h4 | h4
          · rw [h4] at h3
            exact absurd h3 (not_le.mpr hc)
          · exact ⟨c2, h4, h3⟩
      · rw [unf, if_neg hc]
        exact ⟨fun _ => ⟨c, List.mem_cons_self c rest, not_lt.mp hc⟩, fun _ => rfl⟩

theorem scanContours_isSome (cs : List Contour) :
    (scanContours cs).2.isSome = (scanContours cs).1 := by
  induction cs with
  | nil => rfl
  | cons c rest ih =>
      have unf : scanContours (c :: rest)
          = if contourArea c < 500 then scanContours rest
            else (true, some (boundingRect c)) := rfl
      by_cases hc : contourArea c < 500
      · rw [unf, if_pos hc]
        exact ih
      · rw [unf, if_neg hc]
        rfl

theorem scanContours_first (l : List Contour) (c : Contour) (r : List Contour)
    (hsmall : ∀ c2 ∈ l, contourArea c2 < 500) (hbig : 500 ≤ contourArea c) :
    scanContours (l ++ c :: r) = (true, some (boundingRect c)) := by
  induction l with
  | nil =>
      have unf : scanContours (c :: r)
          = if contourArea c < 500 then scanContours r
            else (true, some (boundingRect c)) := rfl
      rw [List.nil_append, unf, if_neg (not_lt.mpr hbig)]
  | cons a l ih =>
      have unf : scanContours (a :: (l ++ c :: r))
          = if contourArea a < 500 then scanContours (l ++ c :: r)
            else (true, some (boundingRect a)) := rfl
      rw [List.cons_append, unf, if_pos (hsmall a (List.mem_cons_self a l))]
      exact ih (fun c2 h2 => hsmall c2 (List.mem_cons_of_mem a h2))

/-- Claim C8 (amended): with a stored baseline, `detect_movement` reports
motion exactly when some external contour of the dilated thresholded
difference image has area AT LEAST 500 px² (the source skips only
`contourArea < 500`, so a contour of area exactly 500 is reported — the
strict reading "exceeds 500" fails at that boundary); the reported box is
the bounding rectangle of the first qualifying contour in contour-scan
order; every contour below the floor is ignored; at most one region (a
single optional box) is reported per call; and the box is non-`None`
exactly when `detected` is true. -/
theorem motion_region_first_contour_rule (ops : CvOps) (p : Image) (f : Frame) :
    ((detectMovement ops (some p) f).1.1 = true ↔
        ∃ c ∈ diffContours ops p f, 500 ≤ contourArea c) ∧
    ((detectMovement ops (some p) f).1.2.isSome = (detectMovement ops (some p) f).1.1) ∧
    (∀ (l : List Contour) (c : Contour) (r : List Contour),
        diffContours ops p f = l ++ c :: r →
        (∀ c2 ∈ l, contourArea c2 < 500) → 500 ≤ contourArea c →
        (detectMovement ops (some p) f).1 = (true, some (boundingRect c))) := by
  rw [detectMovement_some]
  refine ⟨scanContours_true_iff _, scanContours_isSome _, ?_⟩
  intro l c r hsplit hsmall hbig
  rw [hsplit]
  exact scanContours_first l c r hsmall hbig

/-- A square-ish contour of area exactly 100 (below the floor). -/
def smallC : Contour := [(0, 0), (10, 0), (10, 10), (0, 10)]

/-- A rectangle contour of area exactly 1000 (above the floor). -/
def bigC : Contour := [(0, 0), (100, 0), (100, 10), (0, 10)]

/-- A rectangle contour of area exactly 500 (the boundary case). -/
def c500 : Contour := [(0, 0), (50, 0), (50, 10), (0, 10)]

/-- Claim C8 witness: with contours of areas 100 and 1000 in scan order, the
small one is skipped and the box of the large one is reported. -/
theorem motion_region_first_contour_rule_witness :
    (detectMovement (trivOps [smallC, bigC]) (some [[0]]) [[(0, 0, 0)]]).1
      = (true, some (0, 0, 101, 11)) := by
  have hsmall : ∀ c2 ∈ [smallC], contourArea c2 < 500 := by
    intro c2 h2
    rw [List.mem_singleton.mp h2]
    have hs : shoelace smallC = 200 := by decide
    norm_num [contourArea, hs]
  have hbig : (500 : ℚ) ≤ contourArea bigC := by
    have hs : shoelace bigC = 2000 := by decide
    norm_num [contourArea, hs]
  have h := (motion_region_first_contour_rule (trivOps [smallC, bigC])
      [[0]] [[(0, 0, 0)]]).2.2 [smallC] bigC [] rfl hsmall hbig
  rw [h]
  have hb : boundingRect bigC = (0, 0, 101, 11) := by decide
  rw [hb]

/-- Claim C8 counterexample: a contour of area exactly 500 px² does not
EXCEED the 500 px² floor, yet `detect_movement` reports it as motion with
its bounding box, because the source skips only `contourArea < 500`. -/
theorem contour_area_boundary_detected :
    contourArea c500 = 500 ∧ ¬ ((500 : ℚ) < contourArea c500) ∧
    (detectMovement (trivOps [c500]) (some [[0]]) [[(0, 0, 0)]]).1
      = (true, some (0, 0, 51, 11)) := by
  have hs : shoelace c500 = 1000 := by decide
  have ha : contourArea c500 = 500 := by norm_num [contourArea, hs]
  refine ⟨ha, by rw [ha]; norm_num, ?_⟩
  rw [detectMovement_some]
  have hd : diffContours (trivOps [c500]) [[0]] [[(0, 0, 0)]] = [c500] := rfl
  rw [hd]
  have unf : scanContours [c500]
      = if contourArea c500 < 500 then scanContours []
        else (true, some (boundingRect c500)) := rfl
  rw [unf, if_neg (by rw [ha]; norm_num)]
  have hb : boundingRect c500 = (0, 0, 51, 11) := by decide
  rw [hb]

/-! ## CameraPipeline state (claims C2, C3, C5, C6, C10)

The mutable per-instance state of `VideoCamera` (video_camera.py lines
38-78). Wall-clock reads (`time.time()`) are passed in as integer
arguments; the SMTP transport outcome is a boolean argument (the source
swallows every exception of the send). `frame_skip_interval` and
`alert_interval` are set to 2 and 30 in `__init__` but kept as fields. -/

structure CamState where
  videoOpen : Bool
  frameCount : Nat
  frameSkipInterval : Nat
  previousFrame : Option Image
  frames : List Frame
  detectedFaces : List DetectedFace
  alertBuffer : List String
  frameBuffer : List Frame
  runningBuffer : List Frame
  lastAlertTime : Int
  alertInterval : Int

theorem isEmpty_false_of_ne {α : Type _} {l : List α} (h : l ≠ []) : l.isEmpty = false := by
  cases l with
  | nil => exact absurd rfl h
  | cons a t => rfl

/-- Embedding of `select_representative_frames` (video_camera.py lines 316-321, and the
identical send_email.py lines 144-159): with more frames than requested,
evenly spaced sampling at stride `len // num`; otherwise the list itself. -/
def selectRepresentativeFrames (frames : List Frame) (numFrames : Nat) : List Frame :=
  if frames.length ≤ numFrames then frames
  else (List.range numFrames).map (fun i => frames.getD (i * (frames.length / numFrames)) [])

/-- Embedding of `VideoCamera.send_email_snapshot` (video_camera.py lines 270-314): a
no-op on an empty alert log; otherwise it composes a message whose image
attachments are `select_representative_frames(self.frame_buffer, 2)` — with
no duplication of a single frame and no abort on an empty buffer — and
sends it; on success both buffers are cleared, and on a transport error the
exception is swallowed with the state untouched. The first component is the
image-attachment list of the composed message, `none` when nothing was
composed. The message body (log text plus detected-face lines) carries no
state and is not modelled. -/
def vcSendEmailSnapshot (smtpOk : Bool) (s : CamState) : Option (List Frame) × CamState :=
  if s.alertBuffer.isEmpty then (none, s)
  else
    if smtpOk then
      (some (selectRepresentativeFrames s.frameBuffer 2),
        { s with alertBuffer := [], frameBuffer := [] })
    else (some (selectRepresentativeFrames s.frameBuffer 2), s)

/-- Embedding of `VideoCamera.log_event` (video_camera.py lines 261-268): append the
timestamped entry to the alert log; when
`time.time() - last_alert_time >= alert_interval`, invoke
`send_email_snapshot()` and then set `last_alert_time = time.time()` —
unconditionally, whether or not the send succeeded. `tCheck` is the first
`time.time()` reading (the guard) and `tAfter` the second (taken after the
dispatch attempt returns). Also returns whether a dispatch was initiated. -/
def logEvent (tCheck tAfter : Int) (smtpOk : Bool) (entry : String) (s : CamState) :
    CamState × Bool :=
  let s1 : CamState := { s with alertBuffer := s.alertBuffer ++ [entry] }
  if s.alertInterval ≤ tCheck - s1.lastAlertTime then
    ({ (vcSendEmailSnapshot smtpOk s1).2 with lastAlertTime := tAfter }, true)
  else (s1, false)

/-- One `log_event` call of a trace: guard-time reading, post-dispatch time
reading, SMTP outcome, logged entry. -/
abbrev LogCall := Int × Int × Bool × String

/-- Run a sequence of `log_event` calls, collecting the guard-time of every
call that initiated a dispatch. -/
def runLog (s : CamState) : List LogCall → CamState × List Int
  | [] => (s, [])
  | c :: rest =>
      let r := logEvent c.1 c.2.1 c.2.2.1 c.2.2.2 s
      let rr := runLog r.1 rest
      (rr.1, (if r.2 then [c.1] else []) ++ rr.2)

theorem vcSendEmailSnapshot_lastAlertTime (smtpOk : Bool) (s : CamState) :
    (vcSendEmailSnapshot smtpOk s).2.lastAlertTime = s.lastAlertTime := by
  unfold vcSendEmailSnapshot
  by_cases h : s.alertBuffer.isEmpty <;> by_cases h2 : smtpOk <;> simp [h, h2]

theorem vcSendEmailSnapshot_alertInterval (smtpOk : Bool) (s : CamState) :
    (vcSendEmailSnapshot smtpOk s).2.alertInterval = s.alertInterval := by
  unfold vcSendEmailSnapshot
  by_cases h : s.alertBuffer.isEmpty <;> by_cases h2 : smtpOk <;> simp [h, h2]

theorem logEvent_dispatched_iff (tc ta : Int) (ok : Bool) (ev : String) (s : CamState) :
    (logEvent tc ta ok ev s).2 = true ↔ s.alertInterval ≤ tc - s.lastAlertTime := by
  unfold logEvent
  by_cases h : s.alertInterval ≤ tc - s.lastAlertTime <;> simp [h]

theorem logEvent_alertInterval (tc ta : Int) (ok : Bool) (ev : String) (s : CamState) :
    (logEvent tc ta ok ev s).1.alertInterval = s.alertInterval := by
  unfold logEvent
  by_cases h : s.alertInterval ≤ tc - s.lastAlertTime <;>
    simp [h, vcSendEmailSnapshot_alertInterval]

theorem logEvent_lastAlertTime_dispatch (tc ta : Int) (ok : Bool) (ev : String) (s : CamState)
    (h : s.alertInterval ≤ tc - s.lastAlertTime) :
    (logEvent tc ta ok ev s).1.lastAlertTime = ta := by
  unfold logEvent
  simp [h]

theorem logEvent_lastAlertTime_skip (tc ta : Int) (ok : Bool) (ev : String) (s : CamState)
    (h : ¬ s.alertInterval ≤ tc - s.lastAlertTime) :
    (logEvent tc ta ok ev s).1.lastAlertTime = s.lastAlertTime := by
  unfold logEvent
  simp [h]

theorem runLog_cons (s : CamState) (c : LogCall) (rest : List LogCall) :
    runLog s (c :: rest)
      = ((runLog (logEvent c.1 c.2.1 c.2.2.1 c.2.2.2 s).1 rest).1,
         (if (logEvent c.1 c.2.1 c.2.2.1 c.2.2.2 s).2 then [c.1] else [])
           ++ (runLog (logEvent c.1 c.2.1 c.2.2.1 c.2.2.2 s).1 rest).2) := rfl

theorem runLog_spaced :
    ∀ (trace : List LogCall) (s : CamState),
      (∀ c ∈ trace, c.1 ≤ c.2.1) → 0 ≤ s.alertInterval →
      (∀ d ∈ (runLog s trace).2, s.lastAlertTime + s.alertInterval ≤ d) ∧
      List.Pairwise (fun a b => a + s.alertInterval ≤ b) (runLog s trace).2 := by
  intro trace
  induction trace with
  | nil =>
      intro s _ _
      exact ⟨by simp [runLog], by simp [runLog]⟩
  | cons c rest ih =>
      intro s htr hI
      have hc1 : c.1 ≤ c.2.1 := htr c (List.mem_cons_self c rest)
      have htr2 : ∀ x ∈ rest, x.1 ≤ x.2.1 := fun x hx => htr x (List.mem_cons_of_mem c hx)
      have hint : (logEvent c.1 c.2.1 c.2.2.1 c.2.2.2 s).1.alertInterval = s.alertInterval :=
        logEvent_alertInterval ..
      obtain ⟨ihb, ihp⟩ := ih (logEvent c.1 c.2.1 c.2.2.1 c.2.2.2 s).1 htr2 (by rw [hint]; exact hI)
      rw [hint] at ihb ihp
      rw [runLog_cons]
      by_cases hg : s.alertInterval ≤ c.1 - s.lastAlertTime
      · have hd : (logEvent c.1 c.2.1 c.2.2.1 c.2.2.2 s).2 = true :=
          (logEvent_dispatched_iff ..).mpr hg
        have hlast : (logEvent c.1 c.2.1 c.2.2.1 c.2.2.2 s).1.lastAlertTime = c.2.1 :=
          logEvent_lastAlertTime_dispatch c.1 c.2.1 c.2.2.1 c.2.2.2 s hg
        rw [hlast] at ihb
        rw [hd, if_pos rfl]
        constructor
        · intro d hdm
          rcases List.mem_cons.mp hdm with h2 | h2
          · omega
          · have := ihb d h2
            omega
        · rw [List.singleton_append, List.pairwise_cons]
          refine ⟨fun d h2 => ?_, ihp⟩
          have := ihb d h2
          omega
      · have hd : (logEvent c.1 c.2.1 c.2.2.1 c.2.2.2 s).2 = false := by
          rcases Bool.eq_false_or_eq_true (logEvent c.1 c.2.1 c.2.2.1 c.2.2.2 s).2 with h2 | h2
          · exact absurd ((logEvent_dispatched_iff ..).mp h2) hg
          · exact h2
        have hlast : (logEvent c.1 c.2.1 c.2.2.1 c.2.2.2 s).1.lastAlertTime = s.lastAlertTime :=
          logEvent_lastAlertTime_skip c.1 c.2.1 c.2.2.1 c.2.2.2 s hg
        rw [hlast] at ihb
        rw [hd]
        simpa using ⟨ihb, ihp⟩

/-- Claim C3: over every sequence of `log_event` calls in which the two
`time.time()` readings of each call are in chronological order, (i) the
guard-times at which dispatch attempts are initiated are pairwise separated
by at least `alert_interval` — no two dispatch attempts are closer; (ii) a
call initiates a dispatch attempt exactly when
`now - last_alert_time >= alert_interval` holds at its guard; and (iii)
whenever a dispatch is initiated, `last_alert_time` is set to the
post-dispatch clock reading regardless of the SMTP outcome (the send
swallows its exceptions). -/
theorem alert_rate_limiting :
    (∀ (s : CamState) (trace : List LogCall),
        (∀ c ∈ trace, c.1 ≤ c.2.1) → 0 ≤ s.alertInterval →
        List.Pairwise (fun a b => a + s.alertInterval ≤ b) (runLog s trace).2) ∧
    (∀ (tc ta : Int) (ok : Bool) (ev : String) (s : CamState),
        (logEvent tc ta ok ev s).2 = true ↔ s.alertInterval ≤ tc - s.lastAlertTime) ∧
    (∀ (tc ta : Int) (ok : Bool) (ev : String) (s : CamState),
        s.alertInterval ≤ tc - s.lastAlertTime →
        (logEvent tc ta ok ev s).1.lastAlertTime = ta) :=
  ⟨fun s trace htr hI => (runLog_spaced trace s htr hI).2,
    logEvent_dispatched_iff,
    logEvent_lastAlertTime_dispatch⟩

/-- A fresh `VideoCamera` state as `__init__` leaves it, with
`last_alert_time` normalized to 0. -/
def camS0 : CamState :=
  { videoOpen := true
    frameCount := 0
    frameSkipInterval := 2
    previousFrame := none
    frames := []
    detectedFaces := []
    alertBuffer := []
    frameBuffer := []
    runningBuffer := []
    lastAlertTime := 0
    alertInterval := 30 }

/-- A concrete call trace: events at times 1, 2, 31 and 62; with
`alert_interval = 30` only the calls at 31 and 62 dispatch. -/
def traceW : List LogCall :=
  [(1, 1, true, "m1"), (2, 2, true, "m2"), (31, 31, false, "m3"), (62, 63, true, "m4")]

/-- Claim C3 witness: on the concrete trace the dispatch guard-times are
pairwise at least 30 apart; the call at time 31 dispatches; and a dispatch
with a failed send still moves `last_alert_time` to the later reading. -/
theorem alert_rate_limiting_witness :
    List.Pairwise (fun a b => a + (30 : Int) ≤ b) (runLog camS0 traceW).2 ∧
    (logEvent 31 31 true "m" camS0).2 = true ∧
    (logEvent 31 32 false "m" camS0).1.lastAlertTime = 32 := by
  refine ⟨?_, ?_, ?_⟩
  · exact alert_rate_limiting.1 camS0 traceW (by decide) (by decide)
  · exact (alert_rate_limiting.2.1 31 31 true "m" camS0).mpr (by decide)
  · exact alert_rate_limiting.2.2 31 32 false "m" camS0 (by decide)

/-! ## ClipAssembler (claims C5 and C6)

`VideoCamera.save_running_buffer_clip` (video_camera.py lines 338-362). With
a non-empty running buffer it writes every buffered frame through
`cv2.VideoWriter`, releases the writer, records an `Event` row pointing at
the file, clears the buffer, and — still inside the same
`if self.running_buffer:` block — restarts the 60-second `threading.Timer`
(lines 361-362). With an empty buffer the whole body is skipped, including
the timer restart. The method never reads the output file back: there is no
size polling, no timeout and no "did not stabilize" error anywhere in the
repository. -/

/-- Outcome record of one `save_running_buffer_clip` firing. -/
structure ClipOutcome where
  timerRescheduled : Bool
  eventSaved : Bool
  stabilizationError : Bool

/-- Embedding of `VideoCamera.save_running_buffer_clip`. The `fileSizeAt` argument stands
for the on-disk size evolution of the written clip file over time; the
source never reads it, so it is ignored, and `stabilizationError` is
constantly false because no code path raises one. -/
def saveRunningBufferClip (fileSizeAt : Nat → Nat) (s : CamState) : CamState × ClipOutcome :=
  if s.runningBuffer.isEmpty then (s, ⟨false, false, false⟩)
  else ({ s with runningBuffer := [] }, ⟨true, true, false⟩)

/-- Claim C5 (code bug, evaluated at the failing input): when the recurring
clip-save timer fires with an EMPTY running buffer, the whole body of
`save_running_buffer_clip` is skipped — including the `threading.Timer`
restart on lines 361-362, which sits inside the `if self.running_buffer:`
block — so the timer is never rescheduled and never fires again. This
contradicts the claim that the timer is rescheduled after every firing, and
the stated intent of the code comment calling the save "periodic". -/
theorem save_timer_dies_on_empty_buffer :
    (saveRunningBufferClip (fun _ => 0) camS0).2.timerRescheduled = false ∧
    (saveRunningBufferClip (fun _ => 0) camS0).1 = camS0 :=
  ⟨rfl, rfl⟩

/-- A file size trace that strictly grows forever: the written file never
stabilizes within any timeout. -/
def sizeGrow (t : Nat) : Nat := t

/-- A `VideoCamera` state whose running buffer holds one frame. -/
def camRun : CamState := { camS0 with runningBuffer := [mkFrame 0] }

/-- Claim C6 counterexample: saving a non-empty running buffer while the
output file size keeps growing forever (`sizeGrow` strictly increases, so
the size never stops changing within any timeout) raises NO stabilization
error — no such error exists in the code — and still records the clip event
and clears the buffer, handing the possibly unflushed artifact onward. The
claim requires a "did not stabilize" error in this situation. -/
theorem no_stabilization_error_on_growing_file :
    (saveRunningBufferClip sizeGrow camRun).2.stabilizationError = false ∧
    (saveRunningBufferClip sizeGrow camRun).2.eventSaved = true ∧
    (saveRunningBufferClip sizeGrow camRun).1.runningBuffer = [] :=
  ⟨rfl, rfl, rfl⟩

/-- Claim C6 (amended): clip assembly performs no on-disk stabilization
check at all: for every state with a non-empty running buffer and every
size evolution of the output file — stabilizing or not — the save records
the event immediately after the writer is released, raises no
stabilization error, clears the running buffer and reschedules the timer. -/
theorem clip_assembly_no_stabilization_check (fileSizeAt : Nat → Nat) (s : CamState)
    (h : s.runningBuffer ≠ []) :
    (saveRunningBufferClip fileSizeAt s).2.stabilizationError = false ∧
    (saveRunningBufferClip fileSizeAt s).2.eventSaved = true ∧
    (saveRunningBufferClip fileSizeAt s).1.runningBuffer = [] ∧
    (saveRunningBufferClip fileSizeAt s).2.timerRescheduled = true := by
  simp [saveRunningBufferClip, isEmpty_false_of_ne h]

/-- Claim C6 witness: the amended statement evaluated on the one-frame
state and the ever-growing size trace. -/
theorem clip_assembly_no_stabilization_check_witness :
    (saveRunningBufferClip sizeGrow camRun).2.stabilizationError = false ∧
    (saveRunningBufferClip sizeGrow camRun).2.eventSaved = true ∧
    (saveRunningBufferClip sizeGrow camRun).1.runningBuffer = [] ∧
    (saveRunningBufferClip sizeGrow camRun).2.timerRescheduled = true :=
  clip_assembly_no_stabilization_check sizeGrow camRun (by decide)

/-! ## CameraPipeline frame serving (claim C10) -/

/-- Embedding of `VideoCamera.get_frame` (video_camera.py lines 169-215). Arguments: the
OpenCV primitives, whether `self.video.read()` succeeded, the raw frame it
produced, the two `time.time()` readings consumed by a possible `log_event`
dispatch, the SMTP outcome for that dispatch, and the state. Returns the
JPEG bytes (or `None`) and the new state. On the movement path the source
mutates `image` in place with the rectangle and text overlay AFTER pushing
an unannotated copy to the recognition queue, so the queue holds the plain
resized frame while the snapshot and running buffers hold the annotated
one; `detect_movement` always pairs `True` with a box, so the remaining
`(true, none)` pattern is unreachable and treated as no movement. -/
def getFrame (ops : CvOps) (readOk : Bool) (raw : Frame) (tCheck tAfter : Int)
    (smtpOk : Bool) (s : CamState) : Option (List Nat) × CamState :=
  if ¬ s.videoOpen then (none, s)
  else if ¬ readOk then (none, s)
  else
    let s1 : CamState := { s with frameCount := s.frameCount + 1 }
    if s1.frameCount % s1.frameSkipInterval ≠ 0 then (none, s1)
    else
      let image := ops.resize raw
      let md := detectMovement ops s1.previousFrame image
      let s2 : CamState := { s1 with previousFrame := some md.2 }
      let annotated :=
        match md.1 with
        | (true, some box) => ops.rectangleMotion image box
        | _ => image
      let s3 : CamState :=
        match md.1 with
        | (true, some box) =>
            (logEvent tCheck tAfter smtpOk "Movement detected"
              { s2 with frames := s2.frames ++ [image],
                        frameBuffer := s2.frameBuffer ++ [ops.rectangleMotion image box],
                        runningBuffer := s2.runningBuffer ++ [ops.rectangleMotion image box] }).1
        | _ => s2
      (some (ops.imencodeJpg (ops.putTimestamp (ops.drawFaces annotated s3.detectedFaces))), s3)

/-- Claim C10: when a frame is read successfully but the incremented frame
counter is not a multiple of `frame_skip_interval`, `get_frame` returns
`None` and the only state change is that increment: the motion baseline
(`previous_frame`), the recognition queue (`frames`), the snapshot buffer
(`frame_buffer`), the running buffer and the alert log are all untouched. -/
theorem get_frame_skip_no_effect (ops : CvOps) (raw : Frame) (tCheck tAfter : Int)
    (smtpOk : Bool) (s : CamState) (hv : s.videoOpen = true)
    (hskip : (s.frameCount + 1) % s.frameSkipInterval ≠ 0) :
    getFrame ops true raw tCheck tAfter smtpOk s
        = (none, { s with frameCount := s.frameCount + 1 }) ∧
    (getFrame ops true raw tCheck tAfter smtpOk s).2.previousFrame = s.previousFrame ∧
    (getFrame ops true raw tCheck tAfter smtpOk s).2.frames = s.frames ∧
    (getFrame ops true raw tCheck tAfter smtpOk s).2.frameBuffer = s.frameBuffer ∧
    (getFrame ops true raw tCheck tAfter smtpOk s).2.runningBuffer = s.runningBuffer ∧
    (getFrame ops true raw tCheck tAfter smtpOk s).2.alertBuffer = s.alertBuffer := by
  have h1 : getFrame ops true raw tCheck tAfter smtpOk s
      = (none, { s with frameCount := s.frameCount + 1 }) := by
    unfold getFrame
    rw [hv]
    simp [hskip]
  refine ⟨h1, ?_, ?_, ?_, ?_, ?_⟩ <;> rw [h1]

/-- Claim C10 witness: a concrete skipped call — frame counter 0 becomes 1,
which is not a multiple of the skip interval 2 — returns `None` with only
the counter changed. -/
theorem get_frame_skip_no_effect_witness :
    getFrame (trivOps []) true [[(0, 0, 0)]] 0 0 true camS0
      = (none, { camS0 with frameCount := 1 }) :=
  (get_frame_skip_no_effect (trivOps []) [[(0, 0, 0)]] 0 0 true camS0 rfl (by decide)).1

/-! ## AlertNotifier (claim C2)

`SendEmail.send_email_snapshot` (send_email.py lines 62-142) composes and
sends the alert email. Control flow: return on an empty alert log; return
when the request object (and hence the per-user `EmailSettings` row) is
unavailable; then, if the snapshot buffer holds fewer than two frames,
either duplicate the single frame IN PLACE (`self.frame_buffer.append(...)`)
or, with zero frames, return before composing; attach
`select_representative_frames(frame_buffer, 2)` and optionally the video
file; on success clear the log, the buffer and the video path; on a
transport error swallow the exception, keeping the (possibly duplicated)
buffer. The embedding hoists the zero-frame return in front of the
duplication; the two orders are equivalent because with zero frames the
duplication branch is not taken and with one frame the zero-frame branch is
not taken. -/

/-- The mutable state of a `SendEmail` instance (send_email.py lines
18-30). -/
structure EmailState where
  alertBuffer : List String
  frameBuffer : List Frame
  detectedFaces : List DetectedFace
  videoFilePath : Option String

/-- The parts of the composed alert message the claims speak about. -/
structure ComposedEmail where
  imageAttachments : List Frame
  videoAttached : Bool

/-- Embedding of `SendEmail.send_email_snapshot`. `hasSettings` is whether the request
object is available and the `EmailSettings` lookup succeeds; `smtpOk` is the
SMTP transport outcome. The first component is the composed message (its
image attachments and whether a video was attached), `none` when the method
returned before composing one. -/
def sendEmailSnapshot (hasSettings smtpOk : Bool) (s : EmailState) :
    Option ComposedEmail × EmailState :=
  if s.alertBuffer.isEmpty then (none, s)
  else if ¬ hasSettings then (none, s)
  else if s.frameBuffer.isEmpty then (none, s)
  else
    let fb := if s.frameBuffer.length = 1 then s.frameBuffer ++ [s.frameBuffer.getD 0 []]
              else s.frameBuffer
    let email : ComposedEmail := ⟨selectRepresentativeFrames fb 2, s.videoFilePath.isSome⟩
    if smtpOk then
      (some email, { s with alertBuffer := [], frameBuffer := [], videoFilePath := none })
    else (some email, { s with frameBuffer := fb })

/-- Claim C2 (amended): with a non-empty alert log and available settings,
`SendEmail.send_email_snapshot` composes exactly two image attachments when
the snapshot buffer holds exactly one frame (the frame duplicated), and
aborts without composing or sending — leaving the whole state unchanged —
when it holds none. `VideoCamera.send_email_snapshot` instead attaches
`select_representative_frames(frame_buffer, 2)` — a single attachment for a
single frame, zero attachments for an empty buffer — and sends whenever the
alert log is non-empty, clearing the log and the snapshot buffer on
success. -/
theorem dispatch_attachment_rule :
    (∀ (s : EmailState) (ok : Bool) (f : Frame),
        s.alertBuffer ≠ [] → s.frameBuffer = [f] →
        (sendEmailSnapshot true ok s).1 = some ⟨[f, f], s.videoFilePath.isSome⟩) ∧
    (∀ (s : EmailState) (hs ok : Bool),
        s.frameBuffer = [] → sendEmailSnapshot hs ok s = (none, s)) ∧
    (∀ (s : CamState) (ok : Bool),
        s.alertBuffer ≠ [] →
        (vcSendEmailSnapshot ok s).1 = some (selectRepresentativeFrames s.frameBuffer 2) ∧
        (vcSendEmailSnapshot true s).2.alertBuffer = [] ∧
        (vcSendEmailSnapshot true s).2.frameBuffer = []) := by
  refine ⟨?_, ?_, ?_⟩
  · intro s ok f halert hframe
    have hfb : (if s.frameBuffer.length = 1 then s.frameBuffer ++ [s.frameBuffer.getD 0 []]
        else s.frameBuffer) = [f, f] := by
      rw [hframe]
      rfl
    unfold sendEmailSnapshot
    rw [isEmpty_false_of_ne halert, hframe]
    simp only [Bool.false_eq_true, if_false, not_true, List.isEmpty_cons]
    rw [hframe] at hfb
    cases ok <;> simp [hfb, selectRepresentativeFrames]
  · intro s hs ok hframe
    unfold sendEmailSnapshot
    by_cases h1 : s.alertBuffer.isEmpty
    · rw [if_pos h1]
    · rw [if_neg h1]
      by_cases h2 : hs
      · rw [if_neg (by simp [h2]), if_pos (by rw [hframe]; rfl)]
      · rw [if_pos (by simp [h2])]
  · intro s ok halert
    unfold vcSendEmailSnapshot
    rw [isEmpty_false_of_ne halert]
    cases ok <;> simp

/-- A `SendEmail` state holding one logged event and one buffered frame. -/
def emailOneFrame : EmailState :=
  { alertBuffer := ["[t] Movement detected"]
    frameBuffer := [mkFrame 1]
    detectedFaces := []
    videoFilePath := none }

/-- A `SendEmail` state holding one logged event and no buffered frame. -/
def emailNoFrame : EmailState :=
  { alertBuffer := ["[t] Movement detected"]
    frameBuffer := []
    detectedFaces := []
    videoFilePath := none }

/-- Claim C2 witness: with one buffered frame the composed message carries
that frame twice; with no buffered frame the dispatch aborts with the state
unchanged. -/
theorem dispatch_attachment_rule_witness :
    (sendEmailSnapshot true true emailOneFrame).1
      = some ⟨[mkFrame 1, mkFrame 1], false⟩ ∧
    sendEmailSnapshot true false emailNoFrame = (none, emailNoFrame) := by
  constructor
  · exact dispatch_attachment_rule.1 emailOneFrame true (mkFrame 1) (by decide) rfl
  · exact dispatch_attachment_rule.2.1 emailNoFrame true false rfl

/-- A `VideoCamera` state with a non-empty alert log and exactly one
snapshot-buffer frame. -/
def camOneFrame : CamState :=
  { camS0 with alertBuffer := ["[t] Movement detected"], frameBuffer := [mkFrame 1] }

/-- A `VideoCamera` state with a non-empty alert log and an empty snapshot
buffer. -/
def camNoFrame : CamState := { camS0 with alertBuffer := ["[t] Movement detected"] }

/-- Claim C2 counterexample: `VideoCamera.send_email_snapshot`
(video_camera.py lines 270-314), also cited by the claim, neither
duplicates a single buffered frame — one frame yields ONE image
attachment — nor aborts on an empty snapshot buffer: it still sends, with
zero attachments, and drains the alert log on success, so neither half of
the claim holds of it. -/
theorem vc_dispatch_attachment_counts :
    (vcSendEmailSnapshot true camOneFrame).1 = some [mkFrame 1] ∧
    (vcSendEmailSnapshot true camNoFrame).1 = some [] ∧
    (vcSendEmailSnapshot true camNoFrame).2.alertBuffer = [] := by
  refine ⟨rfl, rfl, rfl⟩

/-! ## AudioDeviceSource (claim C9)

`AudioSource.update` (audio_source.py lines 66-84) is the body the capture
thread runs. Its `while` body reads a chunk inside a
`try ... except alsaaudio.ALSAAudioError` block; when the chunk is non-empty
and its mean absolute amplitude exceeds the threshold it calls
`self.trigger_event(volume, timestamp)` — but `trigger_event` is defined on
lines 86-90 as `def trigger_event(self, volume)`, accepting ONE argument,
so the call raises a `TypeError` that the `except` clause does not catch:
the thread dies before any listener is invoked. When no event triggers,
execution reaches `self.stop()` — indented at the END of the loop body, not
inside the `except` handler — which sets `started = False`, so the loop
exits after a single chunk. Either way the capture loop does not continue. -/

/-- One chunk as returned by `self.inp.read()`: the reported length and the
signed 16-bit samples. -/
structure AudioChunk where
  chunkLen : Int
  samples : List Int

/-- Model of `np.abs(audio_data).mean()`: mean absolute amplitude of a chunk. -/
def chunkVolume (c : AudioChunk) : ℚ :=
  ((c.samples.map (fun a => (a.natAbs : ℚ))).sum) / (c.samples.length : ℚ)

/-- The `AudioSource` fields the capture loop touches: the cooperative stop
flag, the registered listeners (by index) and the volume threshold. -/
structure AudioState where
  started : Bool
  listeners : List Nat
  threshold : ℚ

/-- How one iteration of the `while` body of `AudioSource.update` ends. -/
inductive AudioOutcome
  | typeErrorRaised
  | stoppedSelf

/-- One iteration of the `while` body of `AudioSource.update` under Python
semantics. Returns how the iteration ended, the state it left, and the
`(listener, amplitude)` callbacks actually invoked — which is always the
empty list: on the loud path the two-argument call into the one-parameter
`trigger_event` raises `TypeError` before the listener loop is reached, and
on the quiet path no event triggers and `self.stop()` ends the loop. -/
def audioUpdateStep (s : AudioState) (c : AudioChunk) :
    AudioOutcome × AudioState × List (Nat × ℚ) :=
  if 0 < c.chunkLen ∧ s.threshold < chunkVolume c then
    (AudioOutcome.typeErrorRaised, s, [])
  else
    (AudioOutcome.stoppedSelf, { s with started := false }, [])

/-- An `AudioSource` with one registered listener and the default
threshold 1000. -/
def audioS : AudioState := { started := true, listeners := [0], threshold := 1000 }

/-- A chunk of mean absolute amplitude 2000, above the threshold. -/
def loudChunk : AudioChunk := { chunkLen := 2, samples := [2000, -2000] }

/-- A chunk of mean absolute amplitude 1, below the threshold. -/
def quietChunk : AudioChunk := { chunkLen := 2, samples := [1, 1] }

/-- Claim C9 (code bug, evaluated at the failing input): with a registered
listener and a chunk whose mean absolute amplitude 2000 exceeds the
threshold 1000, the iteration ends in an uncaught `TypeError` — the call
`self.trigger_event(volume, timestamp)` passes two arguments to
`def trigger_event(self, volume)` — so NO listener callback receives the
amplitude and the capture thread dies; and on a quiet chunk the
`self.stop()` at the end of the loop body clears `started`, so the loop
stops itself after one chunk instead of continuing. -/
theorem audio_update_listener_bug :
    audioS.listeners = [0] ∧
    (audioUpdateStep audioS loudChunk).1 = AudioOutcome.typeErrorRaised ∧
    (audioUpdateStep audioS loudChunk).2.2 = [] ∧
    (audioUpdateStep audioS quietChunk).2.1.started = false := by
  have hv : chunkVolume loudChunk = 2000 := by
    norm_num [chunkVolume, loudChunk]
  have hq : chunkVolume quietChunk = 1 := by
    norm_num [chunkVolume, quietChunk]
  have hcond : 0 < loudChunk.chunkLen ∧ audioS.threshold < chunkVolume loudChunk := by
    rw [hv]
    constructor <;> norm_num [loudChunk, audioS]
  have hncond : ¬ (0 < quietChunk.chunkLen ∧ audioS.threshold < chunkVolume quietChunk) := by
    rw [hq]
    rintro ⟨-, h2⟩
    norm_num [audioS] at h2
  refine ⟨rfl, ?_, ?_, ?_⟩
  · unfold audioUpdateStep
    rw [if_pos hcond]
  · unfold audioUpdateStep
    rw [if_pos hcond]
  · unfold audioUpdateStep
    rw [if_neg hncond]
